import Mathlib

/-!
Verification of the xhci repository (src/ring/trb/command.rs and
src/registers/capability.rs) against its natural-language specification.

The 16-byte TRB record is modelled as four natural numbers, one per 32-bit
word; the bit-range operations of the external bit_field crate are modelled
arithmetically (`getBits` / `setBits` / `getBit` / `setBit`).  Rust setters
that can panic (an out-of-range value handed to `set_bits`, or a misaligned
pointer handed to an `assert!`-guarded pointer setter) are modelled as
`Option`-returning functions: `none` is the panic, which in the source
happens before any word of the record is written.
-/

namespace Xhci

/-- Extract the `wd` bits of `w` that start at bit `lo`; this is the bit_field
crate's `get_bits` over the inclusive range `lo ..= lo + wd - 1`. -/
def getBits (w lo wd : Nat) : Nat := w / 2 ^ lo % 2 ^ wd

/-- Replace the `wd` bits of `w` starting at bit `lo` by `v`; this is the
bit_field crate's `set_bits`.  The crate asserts that `v` fits in `wd` bits,
so every use below is guarded by (or accompanied by a proof of) `v < 2 ^ wd`. -/
def setBits (w lo wd v : Nat) : Nat :=
  w % 2 ^ lo + v * 2 ^ lo + w / 2 ^ (lo + wd) * 2 ^ (lo + wd)

/-- Read a single bit as a `Bool`; the bit_field crate's `get_bit`. -/
def getBit (w i : Nat) : Bool := getBits w i 1 == 1

/-- Write a single bit from a `Bool`; the bit_field crate's `set_bit`. -/
def setBit (w i : Nat) (b : Bool) : Nat := setBits w i 1 (cond b 1 0)

/-- A TRB: a fixed 16-byte record modelled as its four 32-bit words. -/
structure Trb where
  w0 : Nat
  w1 : Nat
  w2 : Nat
  w3 : Nat
deriving DecidableEq

/-- Modelled from the spec: the body of the repository's add_trb_with_default macro
is not under src/; per the spec, each variant's constructor yields an all-zero 16-byte
record except the Type discriminator, word 3 bits 10 to 15, preset to the variant's
type code. -/
def cmdDefault (code : Nat) : Trb := ⟨0, 0, 0, setBits 0 10 6 code⟩

/-!
Modelled from the spec: the numeric values of the Type discriminator enumeration are
not under src/ (the source names them Type::NoopCommand, Type::EnableSlot and so on);
the numerals used in the per-variant defaults below are the TRB type codes of the
xHCI specification: Link 6, EnableSlot 9, DisableSlot 10, AddressDevice 11,
ConfigureEndpoint 12, EvaluateContext 13, ResetEndpoint 14, StopEndpoint 15,
SetTrDequeuePointer 16, NoopCommand 23.
-/

namespace Noop

def default : Trb := cmdDefault 23

end Noop

namespace EnableSlot

def default : Trb := cmdDefault 9

def set_slot_type (t : Nat) (x : Trb) : Option Trb :=
  if t < 2 ^ 5 then some { x with w3 := setBits x.w3 16 5 t } else none

def slot_type (x : Trb) : Nat := getBits x.w3 16 5

end EnableSlot

namespace DisableSlot

def default : Trb := cmdDefault 10

def set_slot_id (i : Nat) (x : Trb) : Option Trb :=
  if i < 2 ^ 8 then some { x with w3 := setBits x.w3 24 8 i } else none

def slot_id (x : Trb) : Nat := getBits x.w3 24 8

end DisableSlot

namespace AddressDevice

def default : Trb := cmdDefault 11

/-- The source asserts 16-byte alignment of `p` before writing any word; the panic
on a misaligned pointer is modelled as `none`. -/
def set_input_context_pointer (p : Nat) (x : Trb) : Option Trb :=
  if p % 16 = 0 then some { x with w0 := getBits p 0 32, w1 := getBits p 32 32 } else none

def input_context_pointer (x : Trb) : Nat := (x.w1 <<< 32) ||| x.w0

def set_block_set_address_request (r : Bool) (x : Trb) : Trb :=
  { x with w3 := setBit x.w3 9 r }

def block_set_address_request (x : Trb) : Bool := getBit x.w3 9

def set_slot_id (i : Nat) (x : Trb) : Option Trb :=
  if i < 2 ^ 8 then some { x with w3 := setBits x.w3 24 8 i } else none

def slot_id (x : Trb) : Nat := getBits x.w3 24 8

end AddressDevice

namespace ConfigureEndpoint

def default : Trb := cmdDefault 12

def set_input_context_pointer (p : Nat) (x : Trb) : Option Trb :=
  if p % 16 = 0 then some { x with w0 := getBits p 0 32, w1 := getBits p 32 32 } else none

def input_context_pointer (x : Trb) : Nat := (x.w1 <<< 32) ||| x.w0

def set_deconfigure (d : Bool) (x : Trb) : Trb := { x with w3 := setBit x.w3 9 d }

def deconfigure (x : Trb) : Bool := getBit x.w3 9

def set_slot_id (i : Nat) (x : Trb) : Option Trb :=
  if i < 2 ^ 8 then some { x with w3 := setBits x.w3 24 8 i } else none

def slot_id (x : Trb) : Nat := getBits x.w3 24 8

end ConfigureEndpoint

namespace EvaluateContext

def default : Trb := cmdDefault 13

def set_input_context_pointer (p : Nat) (x : Trb) : Option Trb :=
  if p % 16 = 0 then some { x with w0 := getBits p 0 32, w1 := getBits p 32 32 } else none

def input_context_pointer (x : Trb) : Nat := (x.w1 <<< 32) ||| x.w0

def set_slot_id (i : Nat) (x : Trb) : Option Trb :=
  if i < 2 ^ 8 then some { x with w3 := setBits x.w3 24 8 i } else none

def slot_id (x : Trb) : Nat := getBits x.w3 24 8

end EvaluateContext

namespace ResetEndpoint

def default : Trb := cmdDefault 14

def set_transfer_state_preserve (tsp : Bool) (x : Trb) : Trb :=
  { x with w3 := setBit x.w3 9 tsp }

def transfer_state_preserve (x : Trb) : Bool := getBit x.w3 9

def set_endpoint_id (i : Nat) (x : Trb) : Option Trb :=
  if i < 2 ^ 5 then some { x with w3 := setBits x.w3 16 5 i } else none

def endpoint_id (x : Trb) : Nat := getBits x.w3 16 5

def set_slot_id (i : Nat) (x : Trb) : Option Trb :=
  if i < 2 ^ 8 then some { x with w3 := setBits x.w3 24 8 i } else none

def slot_id (x : Trb) : Nat := getBits x.w3 24 8

end ResetEndpoint

namespace StopEndpoint

def default : Trb := cmdDefault 15

def set_endpoint_id (i : Nat) (x : Trb) : Option Trb :=
  if i < 2 ^ 5 then some { x with w3 := setBits x.w3 16 5 i } else none

def endpoint_id (x : Trb) : Nat := getBits x.w3 16 5

def set_suspend (s : Bool) (x : Trb) : Trb := { x with w3 := setBit x.w3 23 s }

def suspend (x : Trb) : Bool := getBit x.w3 23

def set_slot_id (i : Nat) (x : Trb) : Option Trb :=
  if i < 2 ^ 8 then some { x with w3 := setBits x.w3 24 8 i } else none

def slot_id (x : Trb) : Nat := getBits x.w3 24 8

end StopEndpoint

namespace SetTrDequeuePointer

def default : Trb := cmdDefault 16

def set_dequeue_cycle_state (s : Bool) (x : Trb) : Trb := { x with w0 := setBit x.w0 0 s }

def dequeue_cycle_state (x : Trb) : Bool := getBit x.w0 0

def set_stream_context_type (t : Nat) (x : Trb) : Option Trb :=
  if t < 2 ^ 3 then some { x with w0 := setBits x.w0 1 3 t } else none

def stream_context_type (x : Trb) : Nat := getBits x.w0 1 3

/-- The source asserts 16-byte alignment of `p` before writing any word, then
splices bits 4 to 31 of the low half of `p` into word 0 (its `set_bits` assertion
cannot fire, the spliced value being a 28-bit extract) and stores the high half
into word 1. -/
def set_new_tr_dequeue_pointer (p : Nat) (x : Trb) : Option Trb :=
  if p % 16 = 0 then
    some { x with w0 := setBits x.w0 4 28 (getBits (getBits p 0 32) 4 28),
                  w1 := getBits p 32 32 }
  else none

def new_tr_dequeue_pointer (x : Trb) : Nat := ((x.w1 <<< 32) ||| x.w0) &&& 0xfffffff0

def set_stream_id (i : Nat) (x : Trb) : Option Trb :=
  if i < 2 ^ 16 then some { x with w2 := setBits x.w2 16 16 i } else none

def stream_id (x : Trb) : Nat := getBits x.w2 16 16

def set_endpoint_id (i : Nat) (x : Trb) : Option Trb :=
  if i < 2 ^ 5 then some { x with w3 := setBits x.w3 16 5 i } else none

def endpoint_id (x : Trb) : Nat := getBits x.w3 16 5

def set_slot_id (i : Nat) (x : Trb) : Option Trb :=
  if i < 2 ^ 8 then some { x with w3 := setBits x.w3 24 8 i } else none

def slot_id (x : Trb) : Nat := getBits x.w3 24 8

end SetTrDequeuePointer

namespace StructuralParameters2

def erst_max (r : Nat) : Nat := getBits r 4 4

def event_ring_segment_table_max (r : Nat) : Nat := 2 ^ erst_max r

def max_scratchpad_buffers_hi (r : Nat) : Nat := getBits r 20 6

def max_scratchpad_buffers_lo (r : Nat) : Nat := getBits r 27 5

def max_scratchpad_buffers (r : Nat) : Nat :=
  (max_scratchpad_buffers_hi r <<< 5) ||| max_scratchpad_buffers_lo r

end StructuralParameters2

namespace StructuralParameters1

def number_of_device_slots (r : Nat) : Nat := getBits r 0 8

def number_of_ports (r : Nat) : Nat := getBits r 24 8

end StructuralParameters1

/-- The closed set of TRB variants that the source's allowed macro admits on the
Command Ring; in Rust the closedness is enforced by this being an enum, modelled
here by a closed inductive type. -/
inductive CommandAllowed where
  | link
  | enableSlot
  | disableSlot
  | addressDevice
  | configureEndpoint
  | evaluateContext
  | resetEndpoint
  | stopEndpoint
  | setTrDequeuePointer
  | noop
deriving DecidableEq

def commandAllowedList : List CommandAllowed :=
  [.link, .enableSlot, .disableSlot, .addressDevice, .configureEndpoint,
   .evaluateContext, .resetEndpoint, .stopEndpoint, .setTrDequeuePointer, .noop]

/-- Modelled from the spec: the Ring implementation is not under src/.  A ring slot
holds nothing yet, a command TRB stamped with a cycle bit, or a Link TRB carrying a
Toggle-Cycle flag and a cycle bit (the slot-level payload the cycle-bit protocol of
spec section 4.2 observes). -/
inductive Slot where
  | empty
  | cmd (v : CommandAllowed) (cycle : Bool)
  | linkTrb (toggle : Bool) (cycle : Bool)
deriving DecidableEq

def Slot.isLink : Slot → Bool
  | .linkTrb _ _ => true
  | _ => false

/-- Modelled from the spec: the Ring implementation is not under src/.  State per
spec section 4.2: capacity (slot count of the segment), enqueue index, logical
cycle state, plus the slot contents so the protocol's writes can be observed. -/
structure Ring where
  capacity : Nat
  enqueueIndex : Nat
  cycleState : Bool
  slots : List Slot
deriving DecidableEq

/-- Modelled from the spec: a fresh ring has enqueue index 0 and initial cycle
state true (spec section 4.2), with all slots unwritten. -/
def Ring.new (c : Nat) : Ring := ⟨c, 0, true, List.replicate c .empty⟩

/-- Modelled from the spec, section 4.2's enqueue algorithm: stamp the TRB with the
current cycle state and write it at the enqueue index (steps 1 and 2); if the next
slot would be the reserved final slot, write a Link TRB with Toggle-Cycle set and
the current cycle state there, flip the cycle state and reset the index to 0
(step 4); otherwise increment the index (step 5). -/
def Ring.enqueue (r : Ring) (v : CommandAllowed) : Ring :=
  let written := r.slots.set r.enqueueIndex (.cmd v r.cycleState)
  if r.enqueueIndex + 1 = r.capacity - 1 then
    ⟨r.capacity, 0, !r.cycleState, written.set (r.capacity - 1) (.linkTrb true r.cycleState)⟩
  else
    ⟨r.capacity, r.enqueueIndex + 1, r.cycleState, written⟩

def Ring.enqueueAll (r : Ring) (vs : List CommandAllowed) : Ring :=
  vs.foldl Ring.enqueue r

/-- Writing a sequence of stamped command TRBs at consecutive indices. -/
def placeCmds (s : List Slot) (i : Nat) (b : Bool) : List CommandAllowed → List Slot
  | [] => s
  | v :: vs => placeCmds (s.set i (.cmd v b)) (i + 1) b vs

/-- Statement of the (amended) cycle-bit wraparound behaviour of the spec-modelled
Ring: the first `C - 2` enqueues stamp the current cycle state and write no Link
TRB; the `(C-1)`-th enqueue writes its command into the last usable slot and a
Link TRB with Toggle-Cycle set and the pre-flip cycle state into the reserved
final slot, flips the cycle state and resets the index; the `C`-th enqueued
command lands at index 0 carrying the flipped bit; and every single enqueue
stamps the ring's current cycle state into the TRB it writes. -/
def cycleWraparoundStmt (C : Nat) (vs : List CommandAllowed) (w x : CommandAllowed)
    (r : Ring) (v : CommandAllowed) : Prop :=
  ((Ring.new C).enqueueAll vs).cycleState = true ∧
  ((Ring.new C).enqueueAll vs).enqueueIndex = C - 2 ∧
  ((Ring.new C).enqueueAll vs).slots
    = vs.map (fun u => Slot.cmd u true) ++ [Slot.empty, Slot.empty] ∧
  (((Ring.new C).enqueueAll vs).enqueue w).cycleState = false ∧
  (((Ring.new C).enqueueAll vs).enqueue w).enqueueIndex = 0 ∧
  (((Ring.new C).enqueueAll vs).enqueue w).slots
    = vs.map (fun u => Slot.cmd u true) ++ [Slot.cmd w true, Slot.linkTrb true true] ∧
  ((((Ring.new C).enqueueAll vs).enqueue w).enqueue x).slots[0]? = some (Slot.cmd x false) ∧
  ((r.enqueue v).slots)[r.enqueueIndex]? = some (Slot.cmd v r.cycleState)

/-- Reading back all three AddressDevice fields at once. -/
def addressDeviceReadout (y : Trb) : Nat × Bool × Nat :=
  (AddressDevice.input_context_pointer y, AddressDevice.block_set_address_request y,
    AddressDevice.slot_id y)

/-- Statement of claim C3: on a fresh AddressDevice TRB, setting the Input Context
Pointer to 0x2000, Block Set Address Request to true and Slot ID to 3 in each of the
six possible orders succeeds and every getter recovers the value set; and in general
(the last three conjuncts) each getter recovers the value its own setter last wrote,
for any starting record. -/
def addressDeviceRoundTripStmt (t : Trb) (p i : Nat) (b : Bool) : Prop :=
  Option.map addressDeviceReadout
      (((AddressDevice.set_input_context_pointer 0x2000 AddressDevice.default).map
        (AddressDevice.set_block_set_address_request true)).bind
        (AddressDevice.set_slot_id 3))
    = some (0x2000, true, 3) ∧
  Option.map addressDeviceReadout
      (((AddressDevice.set_input_context_pointer 0x2000 AddressDevice.default).bind
        (AddressDevice.set_slot_id 3)).map
        (AddressDevice.set_block_set_address_request true))
    = some (0x2000, true, 3) ∧
  Option.map addressDeviceReadout
      ((AddressDevice.set_input_context_pointer 0x2000
        (AddressDevice.set_block_set_address_request true AddressDevice.default)).bind
        (AddressDevice.set_slot_id 3))
    = some (0x2000, true, 3) ∧
  Option.map addressDeviceReadout
      ((AddressDevice.set_slot_id 3
        (AddressDevice.set_block_set_address_request true AddressDevice.default)).bind
        (AddressDevice.set_input_context_pointer 0x2000))
    = some (0x2000, true, 3) ∧
  Option.map addressDeviceReadout
      (((AddressDevice.set_slot_id 3 AddressDevice.default).bind
        (AddressDevice.set_input_context_pointer 0x2000)).map
        (AddressDevice.set_block_set_address_request true))
    = some (0x2000, true, 3) ∧
  Option.map addressDeviceReadout
      (((AddressDevice.set_slot_id 3 AddressDevice.default).map
        (AddressDevice.set_block_set_address_request true)).bind
        (AddressDevice.set_input_context_pointer 0x2000))
    = some (0x2000, true, 3) ∧
  ((AddressDevice.set_input_context_pointer p t).map AddressDevice.input_context_pointer
    = some p) ∧
  (AddressDevice.block_set_address_request
    (AddressDevice.set_block_set_address_request b t) = b) ∧
  ((AddressDevice.set_slot_id i t).map AddressDevice.slot_id = some i)

/-- Claim C5, EnableSlot part: the Slot Type setter changes word 3 only inside
bits 16 to 20 (characterization, low bits, high bits). -/
def c5EnableSlotStmt (t : Trb) (v5 : Nat) : Prop :=
  EnableSlot.set_slot_type v5 t = some { t with w3 := setBits t.w3 16 5 v5 } ∧
  (EnableSlot.set_slot_type v5 t).map (fun y => y.w3 % 2 ^ 16) = some (t.w3 % 2 ^ 16) ∧
  (EnableSlot.set_slot_type v5 t).map (fun y => y.w3 / 2 ^ 21) = some (t.w3 / 2 ^ 21)

/-- Claim C5, DisableSlot part: the Slot ID setter changes word 3 only inside
bits 24 to 31. -/
def c5DisableSlotStmt (t : Trb) (v8 : Nat) : Prop :=
  DisableSlot.set_slot_id v8 t = some { t with w3 := setBits t.w3 24 8 v8 } ∧
  (DisableSlot.set_slot_id v8 t).map (fun y => y.w3 % 2 ^ 24) = some (t.w3 % 2 ^ 24) ∧
  (DisableSlot.set_slot_id v8 t).map (fun y => y.w3 / 2 ^ 32) = some (t.w3 / 2 ^ 32)

/-- Claim C5, AddressDevice part: each setter touches only its field's declared
bits, and every other field's getter reads the same value after the call. -/
def c5AddressDeviceStmt (t : Trb) (p v8 : Nat) (b : Bool) : Prop :=
  AddressDevice.set_input_context_pointer p t
    = some { t with w0 := getBits p 0 32, w1 := getBits p 32 32 } ∧
  (AddressDevice.set_input_context_pointer p t).map AddressDevice.block_set_address_request
    = some (AddressDevice.block_set_address_request t) ∧
  (AddressDevice.set_input_context_pointer p t).map AddressDevice.slot_id
    = some (AddressDevice.slot_id t) ∧
  AddressDevice.set_block_set_address_request b t = { t with w3 := setBit t.w3 9 b } ∧
  (AddressDevice.set_block_set_address_request b t).w3 % 2 ^ 9 = t.w3 % 2 ^ 9 ∧
  (AddressDevice.set_block_set_address_request b t).w3 / 2 ^ 10 = t.w3 / 2 ^ 10 ∧
  AddressDevice.input_context_pointer (AddressDevice.set_block_set_address_request b t)
    = AddressDevice.input_context_pointer t ∧
  AddressDevice.slot_id (AddressDevice.set_block_set_address_request b t)
    = AddressDevice.slot_id t ∧
  AddressDevice.set_slot_id v8 t = some { t with w3 := setBits t.w3 24 8 v8 } ∧
  (AddressDevice.set_slot_id v8 t).map (fun y => y.w3 % 2 ^ 24) = some (t.w3 % 2 ^ 24) ∧
  (AddressDevice.set_slot_id v8 t).map (fun y => y.w3 / 2 ^ 32) = some (t.w3 / 2 ^ 32) ∧
  (AddressDevice.set_slot_id v8 t).map AddressDevice.input_context_pointer
    = some (AddressDevice.input_context_pointer t) ∧
  (AddressDevice.set_slot_id v8 t).map AddressDevice.block_set_address_request
    = some (AddressDevice.block_set_address_request t)

/-- Claim C5, ConfigureEndpoint part. -/
def c5ConfigureEndpointStmt (t : Trb) (p v8 : Nat) (b : Bool) : Prop :=
  ConfigureEndpoint.set_input_context_pointer p t
    = some { t with w0 := getBits p 0 32, w1 := getBits p 32 32 } ∧
  (ConfigureEndpoint.set_input_context_pointer p t).map ConfigureEndpoint.deconfigure
    = some (ConfigureEndpoint.deconfigure t) ∧
  (ConfigureEndpoint.set_input_context_pointer p t).map ConfigureEndpoint.slot_id
    = some (ConfigureEndpoint.slot_id t) ∧
  ConfigureEndpoint.set_deconfigure b t = { t with w3 := setBit t.w3 9 b } ∧
  (ConfigureEndpoint.set_deconfigure b t).w3 % 2 ^ 9 = t.w3 % 2 ^ 9 ∧
  (ConfigureEndpoint.set_deconfigure b t).w3 / 2 ^ 10 = t.w3 / 2 ^ 10 ∧
  ConfigureEndpoint.input_context_pointer (ConfigureEndpoint.set_deconfigure b t)
    = ConfigureEndpoint.input_context_pointer t ∧
  ConfigureEndpoint.slot_id (ConfigureEndpoint.set_deconfigure b t)
    = ConfigureEndpoint.slot_id t ∧
  ConfigureEndpoint.set_slot_id v8 t = some { t with w3 := setBits t.w3 24 8 v8 } ∧
  (ConfigureEndpoint.set_slot_id v8 t).map (fun y => y.w3 % 2 ^ 24) = some (t.w3 % 2 ^ 24) ∧
  (ConfigureEndpoint.set_slot_id v8 t).map (fun y => y.w3 / 2 ^ 32) = some (t.w3 / 2 ^ 32) ∧
  (ConfigureEndpoint.set_slot_id v8 t).map ConfigureEndpoint.input_context_pointer
    = some (ConfigureEndpoint.input_context_pointer t) ∧
  (ConfigureEndpoint.set_slot_id v8 t).map ConfigureEndpoint.deconfigure
    = some (ConfigureEndpoint.deconfigure t)

/-- Claim C5, EvaluateContext part. -/
def c5EvaluateContextStmt (t : Trb) (p v8 : Nat) : Prop :=
  EvaluateContext.set_input_context_pointer p t
    = some { t with w0 := getBits p 0 32, w1 := getBits p 32 32 } ∧
  (EvaluateContext.set_input_context_pointer p t).map EvaluateContext.slot_id
    = some (EvaluateContext.slot_id t) ∧
  EvaluateContext.set_slot_id v8 t = some { t with w3 := setBits t.w3 24 8 v8 } ∧
  (EvaluateContext.set_slot_id v8 t).map (fun y => y.w3 % 2 ^ 24) = some (t.w3 % 2 ^ 24) ∧
  (EvaluateContext.set_slot_id v8 t).map (fun y => y.w3 / 2 ^ 32) = some (t.w3 / 2 ^ 32) ∧
  (EvaluateContext.set_slot_id v8 t).map EvaluateContext.input_context_pointer
    = some (EvaluateContext.input_context_pointer t)

/-- Claim C5, ResetEndpoint part. -/
def c5ResetEndpointStmt (t : Trb) (v5 v8 : Nat) (b : Bool) : Prop :=
  ResetEndpoint.set_transfer_state_preserve b t = { t with w3 := setBit t.w3 9 b } ∧
  (ResetEndpoint.set_transfer_state_preserve b t).w3 % 2 ^ 9 = t.w3 % 2 ^ 9 ∧
  (ResetEndpoint.set_transfer_state_preserve b t).w3 / 2 ^ 10 = t.w3 / 2 ^ 10 ∧
  ResetEndpoint.endpoint_id (ResetEndpoint.set_transfer_state_preserve b t)
    = ResetEndpoint.endpoint_id t ∧
  ResetEndpoint.slot_id (ResetEndpoint.set_transfer_state_preserve b t)
    = ResetEndpoint.slot_id t ∧
  ResetEndpoint.set_endpoint_id v5 t = some { t with w3 := setBits t.w3 16 5 v5 } ∧
  (ResetEndpoint.set_endpoint_id v5 t).map (fun y => y.w3 % 2 ^ 16) = some (t.w3 % 2 ^ 16) ∧
  (ResetEndpoint.set_endpoint_id v5 t).map (fun y => y.w3 / 2 ^ 21) = some (t.w3 / 2 ^ 21) ∧
  (ResetEndpoint.set_endpoint_id v5 t).map ResetEndpoint.transfer_state_preserve
    = some (ResetEndpoint.transfer_state_preserve t) ∧
  (ResetEndpoint.set_endpoint_id v5 t).map ResetEndpoint.slot_id
    = some (ResetEndpoint.slot_id t) ∧
  ResetEndpoint.set_slot_id v8 t = some { t with w3 := setBits t.w3 24 8 v8 } ∧
  (ResetEndpoint.set_slot_id v8 t).map (fun y => y.w3 % 2 ^ 24) = some (t.w3 % 2 ^ 24) ∧
  (ResetEndpoint.set_slot_id v8 t).map (fun y => y.w3 / 2 ^ 32) = some (t.w3 / 2 ^ 32) ∧
  (ResetEndpoint.set_slot_id v8 t).map ResetEndpoint.transfer_state_preserve
    = some (ResetEndpoint.transfer_state_preserve t) ∧
  (ResetEndpoint.set_slot_id v8 t).map ResetEndpoint.endpoint_id
    = some (ResetEndpoint.endpoint_id t)

/-- Claim C5, StopEndpoint part. -/
def c5StopEndpointStmt (t : Trb) (v5 v8 : Nat) (b : Bool) : Prop :=
  StopEndpoint.set_endpoint_id v5 t = some { t with w3 := setBits t.w3 16 5 v5 } ∧
  (StopEndpoint.set_endpoint_id v5 t).map (fun y => y.w3 % 2 ^ 16) = some (t.w3 % 2 ^ 16) ∧
  (StopEndpoint.set_endpoint_id v5 t).map (fun y => y.w3 / 2 ^ 21) = some (t.w3 / 2 ^ 21) ∧
  (StopEndpoint.set_endpoint_id v5 t).map StopEndpoint.suspend
    = some (StopEndpoint.suspend t) ∧
  (StopEndpoint.set_endpoint_id v5 t).map StopEndpoint.slot_id
    = some (StopEndpoint.slot_id t) ∧
  StopEndpoint.set_suspend b t = { t with w3 := setBit t.w3 23 b } ∧
  (StopEndpoint.set_suspend b t).w3 % 2 ^ 23 = t.w3 % 2 ^ 23 ∧
  (StopEndpoint.set_suspend b t).w3 / 2 ^ 24 = t.w3 / 2 ^ 24 ∧
  StopEndpoint.endpoint_id (StopEndpoint.set_suspend b t) = StopEndpoint.endpoint_id t ∧
  StopEndpoint.slot_id (StopEndpoint.set_suspend b t) = StopEndpoint.slot_id t ∧
  StopEndpoint.set_slot_id v8 t = some { t with w3 := setBits t.w3 24 8 v8 } ∧
  (StopEndpoint.set_slot_id v8 t).map (fun y => y.w3 % 2 ^ 24) = some (t.w3 % 2 ^ 24) ∧
  (StopEndpoint.set_slot_id v8 t).map (fun y => y.w3 / 2 ^ 32) = some (t.w3 / 2 ^ 32) ∧
  (StopEndpoint.set_slot_id v8 t).map StopEndpoint.endpoint_id
    = some (StopEndpoint.endpoint_id t) ∧
  (StopEndpoint.set_slot_id v8 t).map StopEndpoint.suspend
    = some (StopEndpoint.suspend t)

/-- Claim C5, SetTrDequeuePointer part, including the spec's concrete example
(Stream ID set after Slot ID leaves Slot ID intact) as its last conjunct. -/
def c5SetTrDequeuePointerStmt (t : Trb) (p v3 v5 v8 v16 : Nat) (b : Bool) : Prop :=
  SetTrDequeuePointer.set_dequeue_cycle_state b t = { t with w0 := setBit t.w0 0 b } ∧
  (SetTrDequeuePointer.set_dequeue_cycle_state b t).w0 / 2 ^ 1 = t.w0 / 2 ^ 1 ∧
  SetTrDequeuePointer.stream_context_type (SetTrDequeuePointer.set_dequeue_cycle_state b t)
    = SetTrDequeuePointer.stream_context_type t ∧
  SetTrDequeuePointer.new_tr_dequeue_pointer (SetTrDequeuePointer.set_dequeue_cycle_state b t)
    = SetTrDequeuePointer.new_tr_dequeue_pointer t ∧
  SetTrDequeuePointer.stream_id (SetTrDequeuePointer.set_dequeue_cycle_state b t)
    = SetTrDequeuePointer.stream_id t ∧
  SetTrDequeuePointer.endpoint_id (SetTrDequeuePointer.set_dequeue_cycle_state b t)
    = SetTrDequeuePointer.endpoint_id t ∧
  SetTrDequeuePointer.slot_id (SetTrDequeuePointer.set_dequeue_cycle_state b t)
    = SetTrDequeuePointer.slot_id t ∧
  SetTrDequeuePointer.set_stream_context_type v3 t
    = some { t with w0 := setBits t.w0 1 3 v3 } ∧
  (SetTrDequeuePointer.set_stream_context_type v3 t).map (fun y => y.w0 % 2 ^ 1)
    = some (t.w0 % 2 ^ 1) ∧
  (SetTrDequeuePointer.set_stream_context_type v3 t).map (fun y => y.w0 / 2 ^ 4)
    = some (t.w0 / 2 ^ 4) ∧
  (SetTrDequeuePointer.set_stream_context_type v3 t).map
      SetTrDequeuePointer.dequeue_cycle_state
    = some (SetTrDequeuePointer.dequeue_cycle_state t) ∧
  (SetTrDequeuePointer.set_stream_context_type v3 t).map
      SetTrDequeuePointer.new_tr_dequeue_pointer
    = some (SetTrDequeuePointer.new_tr_dequeue_pointer t) ∧
  (SetTrDequeuePointer.set_stream_context_type v3 t).map SetTrDequeuePointer.stream_id
    = some (SetTrDequeuePointer.stream_id t) ∧
  (SetTrDequeuePointer.set_stream_context_type v3 t).map SetTrDequeuePointer.endpoint_id
    = some (SetTrDequeuePointer.endpoint_id t) ∧
  (SetTrDequeuePointer.set_stream_context_type v3 t).map SetTrDequeuePointer.slot_id
    = some (SetTrDequeuePointer.slot_id t) ∧
  SetTrDequeuePointer.set_new_tr_dequeue_pointer p t
    = some { t with w0 := setBits t.w0 4 28 (getBits (getBits p 0 32) 4 28),
                    w1 := getBits p 32 32 } ∧
  (SetTrDequeuePointer.set_new_tr_dequeue_pointer p t).map (fun y => y.w0 % 2 ^ 4)
    = some (t.w0 % 2 ^ 4) ∧
  (SetTrDequeuePointer.set_new_tr_dequeue_pointer p t).map (fun y => (y.w2, y.w3))
    = some (t.w2, t.w3) ∧
  (SetTrDequeuePointer.set_new_tr_dequeue_pointer p t).map
      SetTrDequeuePointer.dequeue_cycle_state
    = some (SetTrDequeuePointer.dequeue_cycle_state t) ∧
  (SetTrDequeuePointer.set_new_tr_dequeue_pointer p t).map
      SetTrDequeuePointer.stream_context_type
    = some (SetTrDequeuePointer.stream_context_type t) ∧
  (SetTrDequeuePointer.set_new_tr_dequeue_pointer p t).map SetTrDequeuePointer.stream_id
    = some (SetTrDequeuePointer.stream_id t) ∧
  (SetTrDequeuePointer.set_new_tr_dequeue_pointer p t).map SetTrDequeuePointer.endpoint_id
    = some (SetTrDequeuePointer.endpoint_id t) ∧
  (SetTrDequeuePointer.set_new_tr_dequeue_pointer p t).map SetTrDequeuePointer.slot_id
    = some (SetTrDequeuePointer.slot_id t) ∧
  SetTrDequeuePointer.set_stream_id v16 t = some { t with w2 := setBits t.w2 16 16 v16 } ∧
  (SetTrDequeuePointer.set_stream_id v16 t).map (fun y => y.w2 % 2 ^ 16)
    = some (t.w2 % 2 ^ 16) ∧
  (SetTrDequeuePointer.set_stream_id v16 t).map (fun y => y.w2 / 2 ^ 32)
    = some (t.w2 / 2 ^ 32) ∧
  (SetTrDequeuePointer.set_stream_id v16 t).map SetTrDequeuePointer.dequeue_cycle_state
    = some (SetTrDequeuePointer.dequeue_cycle_state t) ∧
  (SetTrDequeuePointer.set_stream_id v16 t).map SetTrDequeuePointer.stream_context_type
    = some (SetTrDequeuePointer.stream_context_type t) ∧
  (SetTrDequeuePointer.set_stream_id v16 t).map SetTrDequeuePointer.new_tr_dequeue_pointer
    = some (SetTrDequeuePointer.new_tr_dequeue_pointer t) ∧
  (SetTrDequeuePointer.set_stream_id v16 t).map SetTrDequeuePointer.endpoint_id
    = some (SetTrDequeuePointer.endpoint_id t) ∧
  (SetTrDequeuePointer.set_stream_id v16 t).map SetTrDequeuePointer.slot_id
    = some (SetTrDequeuePointer.slot_id t) ∧
  SetTrDequeuePointer.set_endpoint_id v5 t = some { t with w3 := setBits t.w3 16 5 v5 } ∧
  (SetTrDequeuePointer.set_endpoint_id v5 t).map (fun y => y.w3 % 2 ^ 16)
    = some (t.w3 % 2 ^ 16) ∧
  (SetTrDequeuePointer.set_endpoint_id v5 t).map (fun y => y.w3 / 2 ^ 21)
    = some (t.w3 / 2 ^ 21) ∧
  (SetTrDequeuePointer.set_endpoint_id v5 t).map SetTrDequeuePointer.dequeue_cycle_state
    = some (SetTrDequeuePointer.dequeue_cycle_state t) ∧
  (SetTrDequeuePointer.set_endpoint_id v5 t).map SetTrDequeuePointer.stream_context_type
    = some (SetTrDequeuePointer.stream_context_type t) ∧
  (SetTrDequeuePointer.set_endpoint_id v5 t).map SetTrDequeuePointer.new_tr_dequeue_pointer
    = some (SetTrDequeuePointer.new_tr_dequeue_pointer t) ∧
  (SetTrDequeuePointer.set_endpoint_id v5 t).map SetTrDequeuePointer.stream_id
    = some (SetTrDequeuePointer.stream_id t) ∧
  (SetTrDequeuePointer.set_endpoint_id v5 t).map SetTrDequeuePointer.slot_id
    = some (SetTrDequeuePointer.slot_id t) ∧
  SetTrDequeuePointer.set_slot_id v8 t = some { t with w3 := setBits t.w3 24 8 v8 } ∧
  (SetTrDequeuePointer.set_slot_id v8 t).map (fun y => y.w3 % 2 ^ 24)
    = some (t.w3 % 2 ^ 24) ∧
  (SetTrDequeuePointer.set_slot_id v8 t).map (fun y => y.w3 / 2 ^ 32)
    = some (t.w3 / 2 ^ 32) ∧
  (SetTrDequeuePointer.set_slot_id v8 t).map SetTrDequeuePointer.dequeue_cycle_state
    = some (SetTrDequeuePointer.dequeue_cycle_state t) ∧
  (SetTrDequeuePointer.set_slot_id v8 t).map SetTrDequeuePointer.stream_context_type
    = some (SetTrDequeuePointer.stream_context_type t) ∧
  (SetTrDequeuePointer.set_slot_id v8 t).map SetTrDequeuePointer.new_tr_dequeue_pointer
    = some (SetTrDequeuePointer.new_tr_dequeue_pointer t) ∧
  (SetTrDequeuePointer.set_slot_id v8 t).map SetTrDequeuePointer.stream_id
    = some (SetTrDequeuePointer.stream_id t) ∧
  (SetTrDequeuePointer.set_slot_id v8 t).map SetTrDequeuePointer.endpoint_id
    = some (SetTrDequeuePointer.endpoint_id t) ∧
  ((SetTrDequeuePointer.set_slot_id 7 SetTrDequeuePointer.default).bind
      (SetTrDequeuePointer.set_stream_id 0x1234)).map SetTrDequeuePointer.slot_id
    = some 7

/-- Claim C5, full statement: per-variant setter characterizations, in-word
out-of-field-bit preservation, and cross-field getter frames. -/
def c5Stmt (t : Trb) (p v3 v5 v8 v16 : Nat) (b : Bool) : Prop :=
  c5EnableSlotStmt t v5 ∧
  c5DisableSlotStmt t v8 ∧
  c5AddressDeviceStmt t p v8 b ∧
  c5ConfigureEndpointStmt t p v8 b ∧
  c5EvaluateContextStmt t p v8 ∧
  c5ResetEndpointStmt t v5 v8 b ∧
  c5StopEndpointStmt t v5 v8 b ∧
  c5SetTrDequeuePointerStmt t p v3 v5 v8 v16 b


/-! Lemmas about the bit-range primitives. -/

lemma getBits_lt (w lo wd : Nat) : getBits w lo wd < 2 ^ wd :=
  Nat.mod_lt _ (Nat.two_pow_pos wd)

lemma setBits_reassoc (w lo wd v : Nat) :
    setBits w lo wd v = w % 2 ^ lo + (v + w / 2 ^ (lo + wd) * 2 ^ wd) * 2 ^ lo := by
  unfold setBits
  rw [pow_add]
  ring

lemma setBits_mod_low (w lo wd v : Nat) : setBits w lo wd v % 2 ^ lo = w % 2 ^ lo := by
  rw [setBits_reassoc, Nat.add_mul_mod_self_right, Nat.mod_mod_of_dvd w (dvd_refl _)]

lemma setBits_head_lt (w lo wd v : Nat) (hv : v < 2 ^ wd) :
    w % 2 ^ lo + v * 2 ^ lo < 2 ^ (lo + wd) := by
  have h1 : w % 2 ^ lo < 2 ^ lo := Nat.mod_lt _ (Nat.two_pow_pos lo)
  have h2 : v + 1 ≤ 2 ^ wd := hv
  calc w % 2 ^ lo + v * 2 ^ lo < 2 ^ lo + v * 2 ^ lo := by omega
    _ = (v + 1) * 2 ^ lo := by ring
    _ ≤ 2 ^ wd * 2 ^ lo := Nat.mul_le_mul_right _ h2
    _ = 2 ^ (lo + wd) := by rw [pow_add]; ring

lemma setBits_div_high (w lo wd v : Nat) (hv : v < 2 ^ wd) :
    setBits w lo wd v / 2 ^ (lo + wd) = w / 2 ^ (lo + wd) := by
  unfold setBits
  rw [Nat.add_mul_div_right _ _ (Nat.two_pow_pos (lo + wd)),
    Nat.div_eq_of_lt (setBits_head_lt w lo wd v hv), Nat.zero_add]

lemma getBits_setBits_self (w lo wd v : Nat) (hv : v < 2 ^ wd) :
    getBits (setBits w lo wd v) lo wd = v := by
  unfold getBits
  rw [setBits_reassoc, Nat.add_mul_div_right _ _ (Nat.two_pow_pos lo),
    Nat.div_eq_of_lt (Nat.mod_lt _ (Nat.two_pow_pos lo)), Nat.zero_add,
    Nat.add_mul_mod_self_right, Nat.mod_eq_of_lt hv]

lemma getBits_eq_mod_div (x lo wd : Nat) : getBits x lo wd = x % 2 ^ (lo + wd) / 2 ^ lo := by
  unfold getBits
  rw [pow_add, Nat.mod_mul_right_div_self]

lemma getBits_congr_mod {x y m : Nat} (h : x % 2 ^ m = y % 2 ^ m) {lo wd : Nat}
    (hle : lo + wd ≤ m) : getBits x lo wd = getBits y lo wd := by
  rw [getBits_eq_mod_div, getBits_eq_mod_div,
    ← Nat.mod_mod_of_dvd x (pow_dvd_pow 2 hle), h, Nat.mod_mod_of_dvd y (pow_dvd_pow 2 hle)]

lemma getBits_setBits_low (w lo wd v : Nat) {lo2 wd2 : Nat} (h : lo2 + wd2 ≤ lo) :
    getBits (setBits w lo wd v) lo2 wd2 = getBits w lo2 wd2 :=
  getBits_congr_mod (setBits_mod_low w lo wd v) h

lemma getBits_div_congr {x y k : Nat} (h : x / 2 ^ k = y / 2 ^ k) {lo wd : Nat} (hk : k ≤ lo) :
    getBits x lo wd = getBits y lo wd := by
  unfold getBits
  have e : (2 : Nat) ^ lo = 2 ^ k * 2 ^ (lo - k) := by
    rw [← pow_add]
    congr 1
    omega
  rw [e, ← Nat.div_div_eq_div_mul, ← Nat.div_div_eq_div_mul, h]

lemma getBits_setBits_high (w lo wd v : Nat) (hv : v < 2 ^ wd) {lo2 wd2 : Nat}
    (h : lo + wd ≤ lo2) : getBits (setBits w lo wd v) lo2 wd2 = getBits w lo2 wd2 :=
  getBits_div_congr (setBits_div_high w lo wd v hv) h

lemma setBits_lt {w : Nat} (lo wd v : Nat) {n : Nat} (hw : w < 2 ^ n) (hv : v < 2 ^ wd)
    (hn : lo + wd ≤ n) : setBits w lo wd v < 2 ^ n := by
  have e : (2 : Nat) ^ n = 2 ^ (lo + wd) * 2 ^ (n - (lo + wd)) := by
    rw [← pow_add]
    congr 1
    omega
  have hz : setBits w lo wd v / 2 ^ n = 0 := by
    rw [e, ← Nat.div_div_eq_div_mul, setBits_div_high w lo wd v hv,
      Nat.div_div_eq_div_mul, ← e, Nat.div_eq_of_lt hw]
  exact (Nat.div_eq_zero_iff (Nat.two_pow_pos n)).mp hz

lemma cond_bit_lt (b : Bool) : cond b 1 0 < 2 ^ 1 := by cases b <;> decide

lemma getBit_setBit_self (w i : Nat) (b : Bool) : getBit (setBit w i b) i = b := by
  unfold getBit setBit
  rw [getBits_setBits_self _ _ _ _ (cond_bit_lt b)]
  cases b <;> rfl

lemma setBit_mod_low (w i : Nat) (b : Bool) : setBit w i b % 2 ^ i = w % 2 ^ i :=
  setBits_mod_low w i 1 _

lemma setBit_div_high (w i : Nat) (b : Bool) : setBit w i b / 2 ^ (i + 1) = w / 2 ^ (i + 1) :=
  setBits_div_high w i 1 _ (cond_bit_lt b)

lemma getBits_setBit_low (w i : Nat) (b : Bool) {lo2 wd2 : Nat} (h : lo2 + wd2 ≤ i) :
    getBits (setBit w i b) lo2 wd2 = getBits w lo2 wd2 :=
  getBits_setBits_low w i 1 _ h

lemma getBits_setBit_high (w i : Nat) (b : Bool) {lo2 wd2 : Nat} (h : i + 1 ≤ lo2) :
    getBits (setBit w i b) lo2 wd2 = getBits w lo2 wd2 :=
  getBits_setBits_high w i 1 _ (cond_bit_lt b) h

lemma getBit_setBits_low (w lo wd v i : Nat) (h : i + 1 ≤ lo) :
    getBit (setBits w lo wd v) i = getBit w i := by
  unfold getBit
  rw [getBits_setBits_low w lo wd v h]

lemma getBit_setBits_high (w lo wd v i : Nat) (hv : v < 2 ^ wd) (h : lo + wd ≤ i) :
    getBit (setBits w lo wd v) i = getBit w i := by
  unfold getBit
  rw [getBits_setBits_high w lo wd v hv h]

lemma setBit_lt {w : Nat} (i : Nat) (b : Bool) {n : Nat} (hw : w < 2 ^ n) (hn : i + 1 ≤ n) :
    setBit w i b < 2 ^ n :=
  setBits_lt i 1 _ hw (cond_bit_lt b) hn

/-- Concatenation of a high word shifted past a low word is ordinary addition
when the low word fits under the shift. -/
lemma shiftLeft_lor_eq_add (u l n : Nat) (hl : l < 2 ^ n) :
    (u <<< n) ||| l = u * 2 ^ n + l := by
  apply Nat.eq_of_testBit_eq
  intro i
  rw [Nat.testBit_lor, Nat.testBit_shiftLeft]
  rcases Nat.lt_or_ge i n with h | h
  · have hd : ¬ i ≥ n := Nat.not_le.mpr h
    simp only [decide_eq_false hd, Bool.false_and, Bool.false_or]
    rw [Nat.testBit_to_div_mod, Nat.testBit_to_div_mod]
    have e : u * 2 ^ n + l = l + u * 2 ^ (n - (i + 1)) * 2 * 2 ^ i := by
      have h3 : n = n - (i + 1) + (1 + i) := by omega
      have h4 : (2 : Nat) ^ n = 2 ^ (n - (i + 1)) * 2 * 2 ^ i := by
        calc (2 : Nat) ^ n = 2 ^ (n - (i + 1) + (1 + i)) := by rw [← h3]
          _ = 2 ^ (n - (i + 1)) * 2 ^ (1 + i) := pow_add 2 _ _
          _ = 2 ^ (n - (i + 1)) * (2 ^ 1 * 2 ^ i) := by rw [pow_add]
          _ = 2 ^ (n - (i + 1)) * 2 * 2 ^ i := by ring
      rw [h4]
      ring
    rw [e, Nat.add_mul_div_right _ _ (Nat.two_pow_pos i), Nat.add_mul_mod_self_right]
  · have hd : i ≥ n := h
    simp only [decide_eq_true hd, Bool.true_and]
    have hlb : l.testBit i = false :=
      Nat.testBit_lt_two_pow (lt_of_lt_of_le hl (Nat.pow_le_pow_right (by omega) h))
    rw [hlb, Bool.or_false, Nat.testBit_to_div_mod, Nat.testBit_to_div_mod]
    have e1 : (2 : Nat) ^ i = 2 ^ n * 2 ^ (i - n) := by
      rw [← pow_add]
      congr 1
      omega
    rw [e1, ← Nat.div_div_eq_div_mul, Nat.add_comm (u * 2 ^ n) l,
      Nat.add_mul_div_right _ _ (Nat.two_pow_pos n), Nat.div_eq_of_lt hl, Nat.zero_add]

lemma testBit_mask32_4 (i : Nat) :
    Nat.testBit 0xfffffff0 i = (decide (4 ≤ i) && decide (i < 32)) := by
  rcases Nat.lt_or_ge i 32 with h | h
  · interval_cases i <;> decide
  · have hlt : (0xfffffff0 : Nat) < 2 ^ i :=
      lt_of_lt_of_le (by norm_num) (Nat.pow_le_pow_right (by norm_num) h)
    rw [Nat.testBit_lt_two_pow hlt]
    have hn : ¬ i < 32 := by omega
    simp [hn]

/-- Masking with the 32-bit constant 0xfffffff0 keeps exactly bits 4 to 31. -/
lemma land_fffffff0 (x : Nat) : x &&& 0xfffffff0 = getBits x 4 28 * 2 ^ 4 := by
  apply Nat.eq_of_testBit_eq
  intro i
  simp only [getBits]
  rw [Nat.testBit_land, testBit_mask32_4, ← Nat.shiftLeft_eq, Nat.testBit_shiftLeft,
    Nat.testBit_mod_two_pow,
    show x / 2 ^ 4 = x >>> 4 from (Nat.shiftRight_eq_div_pow x 4).symm,
    Nat.testBit_shiftRight]
  rcases Nat.lt_or_ge i 4 with h4 | h4
  · have hne : ¬ 4 ≤ i := by omega
    simp [hne]
  · rw [show 4 + (i - 4) = i from by omega,
      show decide (i - 4 < 28) = decide (i < 32) from decide_eq_decide.mpr (by omega),
      decide_eq_true h4]
    by_cases hI : i < 32 <;> simp [hI, Bool.and_comm]


/-! Lemmas about the spec-modelled Ring. -/

lemma enqueueAll_no_wrap (vs : List CommandAllowed) : ∀ r : Ring,
    r.enqueueIndex + vs.length + 1 < r.capacity →
    r.enqueueAll vs =
      ⟨r.capacity, r.enqueueIndex + vs.length, r.cycleState,
        placeCmds r.slots r.enqueueIndex r.cycleState vs⟩ := by
  induction vs with
  | nil => intro r _; rfl
  | cons v vs ih =>
    intro r hlt
    have hne : r.enqueueIndex + 1 ≠ r.capacity - 1 := by
      simp only [List.length_cons] at hlt
      omega
    have step : r.enqueue v =
        ⟨r.capacity, r.enqueueIndex + 1, r.cycleState,
          r.slots.set r.enqueueIndex (.cmd v r.cycleState)⟩ := by
      unfold Ring.enqueue
      simp [hne]
    have : r.enqueueAll (v :: vs) = (r.enqueue v).enqueueAll vs := rfl
    rw [this, step, ih]
    · simp only [placeCmds, List.length_cons]
      congr 1
      omega
    · simp only [List.length_cons] at hlt
      simpa using by omega

lemma placeCmds_length (vs : List CommandAllowed) : ∀ (s : List Slot) (i : Nat) (b : Bool),
    (placeCmds s i b vs).length = s.length := by
  induction vs with
  | nil => intro s i b; rfl
  | cons v vs ih => intro s i b; rw [placeCmds, ih, List.length_set]

/-- Writing past the end of a prefix leaves the prefix alone: placing at indices
starting at the length of `a` rewrites only the replicated tail. -/
lemma placeCmds_append (vs : List CommandAllowed) : ∀ (a : List Slot) (m : Nat) (b : Bool),
    vs.length ≤ m →
    placeCmds (a ++ List.replicate m Slot.empty) a.length b vs =
      (a ++ vs.map (fun v => Slot.cmd v b)) ++ List.replicate (m - vs.length) Slot.empty := by
  induction vs with
  | nil => intro a m b _; simp [placeCmds]
  | cons v vs ih =>
    intro a m b hm
    simp only [List.length_cons] at hm
    have hm1 : 1 ≤ m := by omega
    have hrep : List.replicate m Slot.empty = Slot.empty :: List.replicate (m - 1) Slot.empty := by
      rw [← List.replicate_succ]
      congr 1
      omega
    have hset : (a ++ List.replicate m Slot.empty).set a.length (Slot.cmd v b) =
        (a ++ [Slot.cmd v b]) ++ List.replicate (m - 1) Slot.empty := by
      rw [hrep, List.set_append, if_neg (by omega)]
      simp
    rw [placeCmds, hset,
      show a.length + 1 = (a ++ [Slot.cmd v b]).length by simp,
      ih (a ++ [Slot.cmd v b]) (m - 1) b (by omega)]
    simp [show m - 1 - vs.length = m - (vs.length + 1) from by omega]

lemma enqueue_wrap_explicit (C i : Nat) (b : Bool) (L : List Slot) (w : CommandAllowed)
    (h : i + 1 = C - 1) :
    Ring.enqueue ⟨C, i, b, L⟩ w =
      ⟨C, 0, !b, (L.set i (.cmd w b)).set (C - 1) (.linkTrb true b)⟩ := by
  unfold Ring.enqueue
  simp [h]

lemma enqueue_no_wrap_explicit (C i : Nat) (b : Bool) (L : List Slot) (w : CommandAllowed)
    (h : ¬ i + 1 = C - 1) :
    Ring.enqueue ⟨C, i, b, L⟩ w = ⟨C, i + 1, b, L.set i (.cmd w b)⟩ := by
  unfold Ring.enqueue
  simp [h]

lemma enqueueAll_new (C : Nat) (vs : List CommandAllowed) (h : vs.length + 1 < C) :
    (Ring.new C).enqueueAll vs =
      ⟨C, vs.length, true,
        (vs.map (fun v => Slot.cmd v true)) ++ List.replicate (C - vs.length) Slot.empty⟩ := by
  rw [Ring.new, enqueueAll_no_wrap vs _ (by simpa using h)]
  have := placeCmds_append vs [] C true (by omega)
  simpa using this

lemma isSome_ite {α : Type} (c : Prop) [Decidable c] (a : α) :
    (if c then some a else none).isSome = decide c := by
  by_cases h : c <;> simp [h]

lemma split64_roundtrip (p : Nat) (hp64 : p < 2 ^ 64) :
    getBits p 32 32 * 2 ^ 32 + getBits p 0 32 = p := by
  unfold getBits
  have e32 : (2 : Nat) ^ 32 = 4294967296 := by norm_num
  have e64 : (2 : Nat) ^ 64 = 18446744073709551616 := by norm_num
  rw [e64] at hp64
  rw [pow_zero, Nat.div_one, e32]
  omega

lemma ad_ptr_roundtrip (t : Trb) (p : Nat) (hp : p % 16 = 0) (hp64 : p < 2 ^ 64) :
    (AddressDevice.set_input_context_pointer p t).map AddressDevice.input_context_pointer
      = some p := by
  unfold AddressDevice.set_input_context_pointer
  rw [if_pos hp]
  simp only [Option.map_some']
  congr 1
  show ((getBits p 32 32) <<< 32) ||| (getBits p 0 32) = p
  rw [shiftLeft_lor_eq_add _ _ _ (getBits_lt p 0 32)]
  exact split64_roundtrip p hp64

lemma ad_bsar_roundtrip (t : Trb) (b : Bool) :
    AddressDevice.block_set_address_request
      (AddressDevice.set_block_set_address_request b t) = b :=
  getBit_setBit_self t.w3 9 b

lemma ad_slot_roundtrip (t : Trb) (i : Nat) (hi : i < 2 ^ 8) :
    (AddressDevice.set_slot_id i t).map AddressDevice.slot_id = some i := by
  unfold AddressDevice.set_slot_id
  rw [if_pos hi]
  simp only [Option.map_some']
  congr 1
  exact getBits_setBits_self t.w3 24 8 i hi

/-- The New TR Dequeue Pointer getter, computed: for a record whose word 0 is a
32-bit value, the 32-bit-wide mask reduces the getter to bits 4 to 31 of word 0,
shifted back up; word 1 is discarded entirely. -/
lemma stdp_ptr_getter (x : Trb) (h0 : x.w0 < 2 ^ 32) :
    SetTrDequeuePointer.new_tr_dequeue_pointer x = getBits x.w0 4 28 * 2 ^ 4 := by
  unfold SetTrDequeuePointer.new_tr_dequeue_pointer
  rw [shiftLeft_lor_eq_add _ _ _ h0, land_fffffff0]
  congr 1
  exact getBits_congr_mod
    (show (x.w1 * 2 ^ 32 + x.w0) % 2 ^ 32 = x.w0 % 2 ^ 32 from by
      rw [Nat.add_comm]
      exact Nat.add_mul_mod_self_right _ _ _)
    (by norm_num)

lemma stdp_ptr_getter_mk (a0 a1 a2 a3 : Nat) (h0 : a0 < 2 ^ 32) :
    SetTrDequeuePointer.new_tr_dequeue_pointer ⟨a0, a1, a2, a3⟩ = getBits a0 4 28 * 2 ^ 4 :=
  stdp_ptr_getter ⟨a0, a1, a2, a3⟩ h0

lemma c5_enableSlot (t : Trb) (v5 : Nat) (h5 : v5 < 2 ^ 5) : c5EnableSlotStmt t v5 := by
  have hc : EnableSlot.set_slot_type v5 t = some { t with w3 := setBits t.w3 16 5 v5 } := by
    unfold EnableSlot.set_slot_type
    rw [if_pos h5]
  unfold c5EnableSlotStmt
  rw [hc]
  exact ⟨rfl, congrArg some (setBits_mod_low t.w3 16 5 v5),
    congrArg some (setBits_div_high t.w3 16 5 v5 h5)⟩

lemma c5_disableSlot (t : Trb) (v8 : Nat) (h8 : v8 < 2 ^ 8) : c5DisableSlotStmt t v8 := by
  have hc : DisableSlot.set_slot_id v8 t = some { t with w3 := setBits t.w3 24 8 v8 } := by
    unfold DisableSlot.set_slot_id
    rw [if_pos h8]
  unfold c5DisableSlotStmt
  rw [hc]
  exact ⟨rfl, congrArg some (setBits_mod_low t.w3 24 8 v8),
    congrArg some (setBits_div_high t.w3 24 8 v8 h8)⟩

lemma c5_addressDevice (t : Trb) (p v8 : Nat) (b : Bool) (hp : p % 16 = 0)
    (h8 : v8 < 2 ^ 8) : c5AddressDeviceStmt t p v8 b := by
  have hcp : AddressDevice.set_input_context_pointer p t
      = some { t with w0 := getBits p 0 32, w1 := getBits p 32 32 } := by
    unfold AddressDevice.set_input_context_pointer
    rw [if_pos hp]
  have hcs : AddressDevice.set_slot_id v8 t = some { t with w3 := setBits t.w3 24 8 v8 } := by
    unfold AddressDevice.set_slot_id
    rw [if_pos h8]
  unfold c5AddressDeviceStmt
  rw [hcp, hcs]
  exact ⟨rfl, rfl, rfl, rfl, setBit_mod_low t.w3 9 b, setBit_div_high t.w3 9 b, rfl,
    getBits_setBit_high t.w3 9 b (by norm_num), rfl,
    congrArg some (setBits_mod_low t.w3 24 8 v8),
    congrArg some (setBits_div_high t.w3 24 8 v8 h8), rfl,
    congrArg some (getBit_setBits_low t.w3 24 8 v8 9 (by norm_num))⟩

lemma c5_configureEndpoint (t : Trb) (p v8 : Nat) (b : Bool) (hp : p % 16 = 0)
    (h8 : v8 < 2 ^ 8) : c5ConfigureEndpointStmt t p v8 b := by
  have hcp : ConfigureEndpoint.set_input_context_pointer p t
      = some { t with w0 := getBits p 0 32, w1 := getBits p 32 32 } := by
    unfold ConfigureEndpoint.set_input_context_pointer
    rw [if_pos hp]
  have hcs : ConfigureEndpoint.set_slot_id v8 t
      = some { t with w3 := setBits t.w3 24 8 v8 } := by
    unfold ConfigureEndpoint.set_slot_id
    rw [if_pos h8]
  unfold c5ConfigureEndpointStmt
  rw [hcp, hcs]
  exact ⟨rfl, rfl, rfl, rfl, setBit_mod_low t.w3 9 b, setBit_div_high t.w3 9 b, rfl,
    getBits_setBit_high t.w3 9 b (by norm_num), rfl,
    congrArg some (setBits_mod_low t.w3 24 8 v8),
    congrArg some (setBits_div_high t.w3 24 8 v8 h8), rfl,
    congrArg some (getBit_setBits_low t.w3 24 8 v8 9 (by norm_num))⟩

lemma c5_evaluateContext (t : Trb) (p v8 : Nat) (hp : p % 16 = 0) (h8 : v8 < 2 ^ 8) :
    c5EvaluateContextStmt t p v8 := by
  have hcp : EvaluateContext.set_input_context_pointer p t
      = some { t with w0 := getBits p 0 32, w1 := getBits p 32 32 } := by
    unfold EvaluateContext.set_input_context_pointer
    rw [if_pos hp]
  have hcs : EvaluateContext.set_slot_id v8 t
      = some { t with w3 := setBits t.w3 24 8 v8 } := by
    unfold EvaluateContext.set_slot_id
    rw [if_pos h8]
  unfold c5EvaluateContextStmt
  rw [hcp, hcs]
  exact ⟨rfl, rfl, rfl, congrArg some (setBits_mod_low t.w3 24 8 v8),
    congrArg some (setBits_div_high t.w3 24 8 v8 h8), rfl⟩

lemma c5_resetEndpoint (t : Trb) (v5 v8 : Nat) (b : Bool) (h5 : v5 < 2 ^ 5)
    (h8 : v8 < 2 ^ 8) : c5ResetEndpointStmt t v5 v8 b := by
  have hce : ResetEndpoint.set_endpoint_id v5 t
      = some { t with w3 := setBits t.w3 16 5 v5 } := by
    unfold ResetEndpoint.set_endpoint_id
    rw [if_pos h5]
  have hcs : ResetEndpoint.set_slot_id v8 t = some { t with w3 := setBits t.w3 24 8 v8 } := by
    unfold ResetEndpoint.set_slot_id
    rw [if_pos h8]
  unfold c5ResetEndpointStmt
  rw [hce, hcs]
  exact ⟨rfl, setBit_mod_low t.w3 9 b, setBit_div_high t.w3 9 b,
    getBits_setBit_high t.w3 9 b (by norm_num), getBits_setBit_high t.w3 9 b (by norm_num),
    rfl, congrArg some (setBits_mod_low t.w3 16 5 v5),
    congrArg some (setBits_div_high t.w3 16 5 v5 h5),
    congrArg some (getBit_setBits_low t.w3 16 5 v5 9 (by norm_num)),
    congrArg some (getBits_setBits_high t.w3 16 5 v5 h5 (by norm_num)),
    rfl, congrArg some (setBits_mod_low t.w3 24 8 v8),
    congrArg some (setBits_div_high t.w3 24 8 v8 h8),
    congrArg some (getBit_setBits_low t.w3 24 8 v8 9 (by norm_num)),
    congrArg some (getBits_setBits_low t.w3 24 8 v8 (by norm_num))⟩

lemma c5_stopEndpoint (t : Trb) (v5 v8 : Nat) (b : Bool) (h5 : v5 < 2 ^ 5)
    (h8 : v8 < 2 ^ 8) : c5StopEndpointStmt t v5 v8 b := by
  have hce : StopEndpoint.set_endpoint_id v5 t
      = some { t with w3 := setBits t.w3 16 5 v5 } := by
    unfold StopEndpoint.set_endpoint_id
    rw [if_pos h5]
  have hcs : StopEndpoint.set_slot_id v8 t = some { t with w3 := setBits t.w3 24 8 v8 } := by
    unfold StopEndpoint.set_slot_id
    rw [if_pos h8]
  unfold c5StopEndpointStmt
  rw [hce, hcs]
  exact ⟨rfl, congrArg some (setBits_mod_low t.w3 16 5 v5),
    congrArg some (setBits_div_high t.w3 16 5 v5 h5),
    congrArg some (getBit_setBits_high t.w3 16 5 v5 23 h5 (by norm_num)),
    congrArg some (getBits_setBits_high t.w3 16 5 v5 h5 (by norm_num)),
    rfl, setBit_mod_low t.w3 23 b, setBit_div_high t.w3 23 b,
    getBits_setBit_low t.w3 23 b (by norm_num), getBits_setBit_high t.w3 23 b (by norm_num),
    rfl, congrArg some (setBits_mod_low t.w3 24 8 v8),
    congrArg some (setBits_div_high t.w3 24 8 v8 h8),
    congrArg some (getBits_setBits_low t.w3 24 8 v8 (by norm_num)),
    congrArg some (getBit_setBits_low t.w3 24 8 v8 23 (by norm_num))⟩

lemma c5_setTrDequeuePointer (t : Trb) (p v3 v5 v8 v16 : Nat) (b : Bool)
    (h0 : t.w0 < 2 ^ 32) (hp : p % 16 = 0) (h3 : v3 < 2 ^ 3) (h5 : v5 < 2 ^ 5)
    (h8 : v8 < 2 ^ 8) (h16 : v16 < 2 ^ 16) :
    c5SetTrDequeuePointerStmt t p v3 v5 v8 v16 b := by
  have hcsct : SetTrDequeuePointer.set_stream_context_type v3 t
      = some { t with w0 := setBits t.w0 1 3 v3 } := by
    unfold SetTrDequeuePointer.set_stream_context_type
    rw [if_pos h3]
  have hcptr : SetTrDequeuePointer.set_new_tr_dequeue_pointer p t
      = some { t with w0 := setBits t.w0 4 28 (getBits (getBits p 0 32) 4 28),
                      w1 := getBits p 32 32 } := by
    unfold SetTrDequeuePointer.set_new_tr_dequeue_pointer
    rw [if_pos hp]
  have hcstream : SetTrDequeuePointer.set_stream_id v16 t
      = some { t with w2 := setBits t.w2 16 16 v16 } := by
    unfold SetTrDequeuePointer.set_stream_id
    rw [if_pos h16]
  have hcep : SetTrDequeuePointer.set_endpoint_id v5 t
      = some { t with w3 := setBits t.w3 16 5 v5 } := by
    unfold SetTrDequeuePointer.set_endpoint_id
    rw [if_pos h5]
  have hcslot : SetTrDequeuePointer.set_slot_id v8 t
      = some { t with w3 := setBits t.w3 24 8 v8 } := by
    unfold SetTrDequeuePointer.set_slot_id
    rw [if_pos h8]
  unfold c5SetTrDequeuePointerStmt
  rw [hcsct, hcptr, hcstream, hcep, hcslot]
  refine ⟨rfl, setBit_div_high t.w0 0 b, getBits_setBit_high t.w0 0 b (by norm_num), ?_,
    rfl, rfl, rfl,
    rfl, congrArg some (setBits_mod_low t.w0 1 3 v3),
    congrArg some (setBits_div_high t.w0 1 3 v3 h3),
    congrArg some (getBit_setBits_low t.w0 1 3 v3 0 (by norm_num)), ?_, rfl, rfl, rfl,
    rfl, congrArg some (setBits_mod_low t.w0 4 28 _), rfl,
    congrArg some (getBit_setBits_low t.w0 4 28 _ 0 (by norm_num)),
    congrArg some (getBits_setBits_low t.w0 4 28 _ (by norm_num)), rfl, rfl, rfl,
    rfl, congrArg some (setBits_mod_low t.w2 16 16 v16),
    congrArg some (setBits_div_high t.w2 16 16 v16 h16), rfl, rfl, rfl, rfl, rfl,
    rfl, congrArg some (setBits_mod_low t.w3 16 5 v5),
    congrArg some (setBits_div_high t.w3 16 5 v5 h5), rfl, rfl, rfl, rfl,
    congrArg some (getBits_setBits_high t.w3 16 5 v5 h5 (by norm_num)),
    rfl, congrArg some (setBits_mod_low t.w3 24 8 v8),
    congrArg some (setBits_div_high t.w3 24 8 v8 h8), rfl, rfl, rfl, rfl,
    congrArg some (getBits_setBits_low t.w3 24 8 v8 (by norm_num)),
    by decide⟩
  · rw [show SetTrDequeuePointer.set_dequeue_cycle_state b t
        = (⟨setBit t.w0 0 b, t.w1, t.w2, t.w3⟩ : Trb) from rfl,
      stdp_ptr_getter_mk _ _ _ _ (setBit_lt 0 b h0 (by norm_num)),
      getBits_setBit_high t.w0 0 b (by norm_num), ← stdp_ptr_getter t h0]
  · show some (SetTrDequeuePointer.new_tr_dequeue_pointer
        (⟨setBits t.w0 1 3 v3, t.w1, t.w2, t.w3⟩ : Trb))
      = some (SetTrDequeuePointer.new_tr_dequeue_pointer t)
    rw [stdp_ptr_getter_mk _ _ _ _ (setBits_lt 1 3 v3 h0 h3 (by norm_num)),
      getBits_setBits_high t.w0 1 3 v3 h3 (by norm_num), ← stdp_ptr_getter t h0]

/-! Claim theorems. -/

/-- Claim C2 (corrected): for a ring of capacity `C` starting fresh, the first
`C - 2` enqueues stamp the current cycle state (true) and write no Link TRB; the
`(C-1)`-th enqueue writes its command into slot `C - 2` and a Link TRB with
Toggle-Cycle set and the pre-flip cycle state into the final slot, flips the
cycle state and resets the enqueue index to 0; the `C`-th enqueued command TRB
carries the flipped cycle bit and lands at index 0; and, invariantly, every
enqueue stamps the ring's current logical cycle state into the TRB it writes. -/
theorem c2_cycle_wraparound (C : Nat) (vs : List CommandAllowed) (w x : CommandAllowed)
    (r : Ring) (v : CommandAllowed) (hC : 2 ≤ C) (hlen : vs.length = C - 2)
    (hr : r.enqueueIndex < r.slots.length) :
    cycleWraparoundStmt C vs w x r v := by
  have hv1 : vs.length + 1 < C := by omega
  have h1 := enqueueAll_new C vs hv1
  have hrep2 : List.replicate (C - vs.length) Slot.empty = [Slot.empty, Slot.empty] := by
    rw [show C - vs.length = 2 from by omega]
    rfl
  have hL : (Ring.new C).enqueueAll vs =
      ⟨C, vs.length, true, vs.map (fun u => Slot.cmd u true) ++ [Slot.empty, Slot.empty]⟩ := by
    rw [h1, hrep2]
  have hcond : vs.length + 1 = C - 1 := by omega
  have hset1 : (vs.map (fun u => Slot.cmd u true) ++ [Slot.empty, Slot.empty]).set
      vs.length (Slot.cmd w true) =
      vs.map (fun u => Slot.cmd u true) ++ [Slot.cmd w true, Slot.empty] := by
    rw [List.set_append, if_neg (by simp)]
    simp
  have hset2 : (vs.map (fun u => Slot.cmd u true) ++ [Slot.cmd w true, Slot.empty]).set
      (C - 1) (Slot.linkTrb true true) =
      vs.map (fun u => Slot.cmd u true) ++ [Slot.cmd w true, Slot.linkTrb true true] := by
    rw [List.set_append, if_neg (by simp; omega)]
    have hi1 : C - 1 - vs.length = 1 := by omega
    simp [hi1]
  have h2 : ((Ring.new C).enqueueAll vs).enqueue w =
      ⟨C, 0, false,
        vs.map (fun u => Slot.cmd u true) ++ [Slot.cmd w true, Slot.linkTrb true true]⟩ := by
    rw [hL, enqueue_wrap_explicit C vs.length true _ w hcond, hset1, hset2, Bool.not_true]
  have hlen2 : (vs.map (fun u => Slot.cmd u true) ++
      [Slot.cmd w true, Slot.linkTrb true true]).length = vs.length + 2 := by
    simp
  have h3 : ((((Ring.new C).enqueueAll vs).enqueue w).enqueue x).slots[0]?
      = some (Slot.cmd x false) := by
    rw [h2]
    by_cases hc2 : 0 + 1 = C - 1
    · rw [enqueue_wrap_explicit C 0 false _ x hc2]
      rw [List.getElem?_set_ne (by omega), List.getElem?_set_self (by rw [hlen2]; omega)]
    · rw [enqueue_no_wrap_explicit C 0 false _ x hc2]
      rw [List.getElem?_set_self (by rw [hlen2]; omega)]
  have hinv : ((r.enqueue v).slots)[r.enqueueIndex]? = some (Slot.cmd v r.cycleState) := by
    by_cases hc : r.enqueueIndex + 1 = r.capacity - 1
    · rw [show r.enqueue v = ⟨r.capacity, 0, !r.cycleState,
          ((r.slots.set r.enqueueIndex (.cmd v r.cycleState)).set (r.capacity - 1)
            (.linkTrb true r.cycleState))⟩ from by unfold Ring.enqueue; simp [hc]]
      rw [List.getElem?_set_ne (by omega), List.getElem?_set_self hr]
    · rw [show r.enqueue v = ⟨r.capacity, r.enqueueIndex + 1, r.cycleState,
          r.slots.set r.enqueueIndex (.cmd v r.cycleState)⟩ from by
            unfold Ring.enqueue; simp [hc]]
      rw [List.getElem?_set_self hr]
  refine ⟨?_, ?_, ?_, ?_, ?_, ?_, h3, hinv⟩
  · rw [hL]
  · rw [hL]
    exact hlen
  · rw [hL]
  · rw [h2]
  · rw [h2]
  · rw [h2]

/-- Witness for claim C2's amended theorem at capacity 4 with concrete commands. -/
theorem c2_cycle_wraparound_witness :
    cycleWraparoundStmt 4 [.noop, .enableSlot] .disableSlot .addressDevice
      (Ring.new 4) .noop :=
  c2_cycle_wraparound 4 [.noop, .enableSlot] .disableSlot .addressDevice (Ring.new 4) .noop
    (by decide) (by decide) (by decide)

/-- Counterexample to claim C2 as stated: at capacity `C = 4`, already the third
(that is, the `(C-1)`-th) enqueue writes the Link TRB with Toggle-Cycle set into the
final slot and flips the cycle state, so it is false that each of the first `C - 1`
enqueues writes no Link TRB; and the fourth (the `C`-th) enqueue does not write the
Link TRB but instead lands at index 0 already carrying the flipped cycle bit, so the
Link write and the wrap to index 0 cannot be attributed to the `C`-th and `(C+1)`-th
enqueues as the claim states. -/
theorem c2_claimed_wraparound_counterexample :
    ((Ring.new 4).enqueueAll [.noop, .noop, .noop]).slots[3]?
      = some (Slot.linkTrb true true) ∧
    ((Ring.new 4).enqueueAll [.noop, .noop, .noop]).cycleState = false ∧
    ((Ring.new 4).enqueueAll [.noop, .noop, .noop, .noop]).slots[0]?
      = some (Slot.cmd .noop false) ∧
    ((Ring.new 4).enqueueAll [.noop, .noop, .noop, .noop]).enqueueIndex = 1 := by
  decide

/-- Claim C1 (code bug): `set_new_tr_dequeue_pointer` on the 16-byte-aligned value
`0x100000000` succeeds and stores the upper half (`1`) into word 1, yet
`new_tr_dequeue_pointer` returns `0`, not `0x100000000`: the getter's mask
`0xffff_fff0` is only 32 bits wide and discards the upper word the setter stored. -/
theorem c1_new_tr_dequeue_pointer_truncated :
    (0x100000000 : Nat) % 16 = 0 ∧
    (SetTrDequeuePointer.set_new_tr_dequeue_pointer 0x100000000
        SetTrDequeuePointer.default).map (fun y => y.w1) = some 1 ∧
    (SetTrDequeuePointer.set_new_tr_dequeue_pointer 0x100000000
        SetTrDequeuePointer.default).map SetTrDequeuePointer.new_tr_dequeue_pointer
      = some 0 := by
  decide

/-- Claim C3: on an AddressDevice TRB, setting the Input Context Pointer to 0x2000,
Block Set Address Request to true and Slot ID to 3 in any of the six orders lets the
three getters recover exactly 0x2000, true and 3 from the 16-byte record; and in
general, for any starting record, each AddressDevice getter returns the value its
setter last wrote (aligned 64-bit pointers below 2^64, 8-bit slot ids). -/
theorem c3_address_device_round_trip (t : Trb) (p i : Nat) (b : Bool)
    (hp : p % 16 = 0) (hp64 : p < 2 ^ 64) (hi : i < 2 ^ 8) :
    addressDeviceRoundTripStmt t p i b := by
  refine ⟨by decide, by decide, by decide, by decide, by decide, by decide,
    ad_ptr_roundtrip t p hp hp64, ad_bsar_roundtrip t b, ad_slot_roundtrip t i hi⟩

/-- Witness for claim C3's theorem at a concrete record and concrete field values. -/
theorem c3_address_device_round_trip_witness :
    addressDeviceRoundTripStmt ⟨1, 2, 3, 4⟩ 0x2000 3 true :=
  c3_address_device_round_trip ⟨1, 2, 3, 4⟩ 0x2000 3 true (by decide) (by decide) (by decide)

/-- Claim C4: each of the four 64-bit pointer-field mutators succeeds exactly when
the pointer is 16-byte aligned; the source's alignment assertion precedes every
store, so the failing case performs no write at all (modelled by `none`). -/
theorem c4_pointer_setter_alignment (p : Nat) (t : Trb) :
    (AddressDevice.set_input_context_pointer p t).isSome = decide (p % 16 = 0) ∧
    (ConfigureEndpoint.set_input_context_pointer p t).isSome = decide (p % 16 = 0) ∧
    (EvaluateContext.set_input_context_pointer p t).isSome = decide (p % 16 = 0) ∧
    (SetTrDequeuePointer.set_new_tr_dequeue_pointer p t).isSome = decide (p % 16 = 0) := by
  by_cases hp : p % 16 = 0 <;>
    simp [AddressDevice.set_input_context_pointer, ConfigureEndpoint.set_input_context_pointer,
      EvaluateContext.set_input_context_pointer, SetTrDequeuePointer.set_new_tr_dequeue_pointer,
      hp]

/-- Claim C5: for every command TRB variant, every field setter modifies only bits
inside that field's declared bit range (setter characterizations plus preservation
of the bits below and above the field within the touched word) and leaves every
other field's last-set value unchanged (getter frames); in particular, on
SetTrDequeuePointer, setting Stream ID to 0x1234 after Slot ID 7 leaves
slot_id() equal to 7. -/
theorem c5_field_isolation (t : Trb) (p v3 v5 v8 v16 : Nat) (b : Bool)
    (h0 : t.w0 < 2 ^ 32) (hp : p % 16 = 0) (h3 : v3 < 2 ^ 3) (h5 : v5 < 2 ^ 5)
    (h8 : v8 < 2 ^ 8) (h16 : v16 < 2 ^ 16) : c5Stmt t p v3 v5 v8 v16 b :=
  ⟨c5_enableSlot t v5 h5, c5_disableSlot t v8 h8, c5_addressDevice t p v8 b hp h8,
    c5_configureEndpoint t p v8 b hp h8, c5_evaluateContext t p v8 hp h8,
    c5_resetEndpoint t v5 v8 b h5 h8, c5_stopEndpoint t v5 v8 b h5 h8,
    c5_setTrDequeuePointer t p v3 v5 v8 v16 b h0 hp h3 h5 h8 h16⟩

/-- Witness for claim C5's theorem at a concrete record and concrete field values. -/
theorem c5_field_isolation_witness :
    c5Stmt ⟨1, 2, 3, 4⟩ 0x2000 5 17 200 0x1234 true :=
  c5_field_isolation ⟨1, 2, 3, 4⟩ 0x2000 5 17 200 0x1234 true (by decide) (by decide)
    (by decide) (by decide) (by decide) (by decide)

/-- Claim C6: the TRB variants accepted on the Command Ring form exactly the closed
ten-element set Link, EnableSlot, DisableSlot, AddressDevice, ConfigureEndpoint,
EvaluateContext, ResetEndpoint, StopEndpoint, SetTrDequeuePointer, Noop: the
enumerating list is duplicate-free, has ten elements, and exhausts the type that
the Ring's enqueue operation accepts. -/
theorem c6_command_ring_allowed_set :
    commandAllowedList.Nodup ∧ commandAllowedList.length = 10 ∧
    ∀ v : CommandAllowed, v ∈ commandAllowedList := by
  refine ⟨by decide, by decide, ?_⟩
  intro v
  cases v <;> decide

/-- Claim C7: for every command variant, the default constructor yields a 16-byte
record whose words 0, 1 and 2 are zero and whose word 3 is zero outside bits 10
to 15, which hold exactly the variant's type code. -/
theorem c7_default_trb_layout :
    (Noop.default.w0 = 0 ∧ Noop.default.w1 = 0 ∧ Noop.default.w2 = 0 ∧
      getBits Noop.default.w3 10 6 = 23 ∧
      Noop.default.w3 % 2 ^ 10 = 0 ∧ Noop.default.w3 / 2 ^ 16 = 0) ∧
    (EnableSlot.default.w0 = 0 ∧ EnableSlot.default.w1 = 0 ∧ EnableSlot.default.w2 = 0 ∧
      getBits EnableSlot.default.w3 10 6 = 9 ∧
      EnableSlot.default.w3 % 2 ^ 10 = 0 ∧ EnableSlot.default.w3 / 2 ^ 16 = 0) ∧
    (DisableSlot.default.w0 = 0 ∧ DisableSlot.default.w1 = 0 ∧ DisableSlot.default.w2 = 0 ∧
      getBits DisableSlot.default.w3 10 6 = 10 ∧
      DisableSlot.default.w3 % 2 ^ 10 = 0 ∧ DisableSlot.default.w3 / 2 ^ 16 = 0) ∧
    (AddressDevice.default.w0 = 0 ∧ AddressDevice.default.w1 = 0 ∧
      AddressDevice.default.w2 = 0 ∧ getBits AddressDevice.default.w3 10 6 = 11 ∧
      AddressDevice.default.w3 % 2 ^ 10 = 0 ∧ AddressDevice.default.w3 / 2 ^ 16 = 0) ∧
    (ConfigureEndpoint.default.w0 = 0 ∧ ConfigureEndpoint.default.w1 = 0 ∧
      ConfigureEndpoint.default.w2 = 0 ∧ getBits ConfigureEndpoint.default.w3 10 6 = 12 ∧
      ConfigureEndpoint.default.w3 % 2 ^ 10 = 0 ∧ ConfigureEndpoint.default.w3 / 2 ^ 16 = 0) ∧
    (EvaluateContext.default.w0 = 0 ∧ EvaluateContext.default.w1 = 0 ∧
      EvaluateContext.default.w2 = 0 ∧ getBits EvaluateContext.default.w3 10 6 = 13 ∧
      EvaluateContext.default.w3 % 2 ^ 10 = 0 ∧ EvaluateContext.default.w3 / 2 ^ 16 = 0) ∧
    (ResetEndpoint.default.w0 = 0 ∧ ResetEndpoint.default.w1 = 0 ∧
      ResetEndpoint.default.w2 = 0 ∧ getBits ResetEndpoint.default.w3 10 6 = 14 ∧
      ResetEndpoint.default.w3 % 2 ^ 10 = 0 ∧ ResetEndpoint.default.w3 / 2 ^ 16 = 0) ∧
    (StopEndpoint.default.w0 = 0 ∧ StopEndpoint.default.w1 = 0 ∧
      StopEndpoint.default.w2 = 0 ∧ getBits StopEndpoint.default.w3 10 6 = 15 ∧
      StopEndpoint.default.w3 % 2 ^ 10 = 0 ∧ StopEndpoint.default.w3 / 2 ^ 16 = 0) ∧
    (SetTrDequeuePointer.default.w0 = 0 ∧ SetTrDequeuePointer.default.w1 = 0 ∧
      SetTrDequeuePointer.default.w2 = 0 ∧ getBits SetTrDequeuePointer.default.w3 10 6 = 16 ∧
      SetTrDequeuePointer.default.w3 % 2 ^ 10 = 0 ∧
      SetTrDequeuePointer.default.w3 / 2 ^ 16 = 0) := by
  decide

/-- Claim C8: for every value of Structural Parameters 2, `max_scratchpad_buffers`
equals bits 20 to 25 shifted left by 5 plus (equivalently, bitwise-or) bits 27 to
31; in particular, high part 2 and low part 1 yield 65. -/
theorem c8_max_scratchpad_buffers (r : Nat) :
    StructuralParameters2.max_scratchpad_buffers r
      = getBits r 20 6 * 2 ^ 5 + getBits r 27 5 ∧
    StructuralParameters2.max_scratchpad_buffers 0x08200000 = 65 := by
  constructor
  · unfold StructuralParameters2.max_scratchpad_buffers
      StructuralParameters2.max_scratchpad_buffers_hi
      StructuralParameters2.max_scratchpad_buffers_lo
    rw [shiftLeft_lor_eq_add _ _ _ (getBits_lt r 27 5)]
  · decide

/-- Claim C9: for every value of Structural Parameters 2,
`event_ring_segment_table_max` is 2 raised to the exponent held in bits 4 to 7,
the exponent is at most 15, so the result fits a u16; an exponent field of 3
yields 8. -/
theorem c9_event_ring_segment_table_max (r : Nat) :
    StructuralParameters2.event_ring_segment_table_max r = 2 ^ getBits r 4 4 ∧
    StructuralParameters2.erst_max r ≤ 15 ∧
    StructuralParameters2.event_ring_segment_table_max r < 2 ^ 16 ∧
    StructuralParameters2.event_ring_segment_table_max 0x30 = 8 := by
  have hlt : StructuralParameters2.erst_max r < 16 := by
    have h := getBits_lt r 4 4
    simpa [StructuralParameters2.erst_max] using h
  refine ⟨rfl, by omega, ?_, by decide⟩
  unfold StructuralParameters2.event_ring_segment_table_max
  exact Nat.pow_lt_pow_right (by norm_num) (by omega)

/-- Claim C10: the mutators whose field is narrower than their 8-bit parameter
succeed exactly when the argument fits the field: Slot Type and Endpoint ID are 5
bits wide (fail from 32 up), Stream Context Type is 3 bits wide (fail from 8 up);
the fit assertion precedes the store, so a failing call writes nothing (modelled
by `none`). -/
theorem c10_narrow_field_setters_reject_oversized (t : Trb) (u : Nat) :
    (EnableSlot.set_slot_type u t).isSome = decide (u < 2 ^ 5) ∧
    (ResetEndpoint.set_endpoint_id u t).isSome = decide (u < 2 ^ 5) ∧
    (SetTrDequeuePointer.set_stream_context_type u t).isSome = decide (u < 2 ^ 3) := by
  unfold EnableSlot.set_slot_type ResetEndpoint.set_endpoint_id
    SetTrDequeuePointer.set_stream_context_type
  refine ⟨isSome_ite _ _, isSome_ite _ _, isSome_ite _ _⟩

end Xhci
